import Mathlib

/-!
Verification of the spec of `check_apt.c` (monitoring-plugins) against a
shallow embedding of its code.  The plugin runs an optional `apt-get update`
("refresh") followed by one `apt-get -s upgrade` / `dist-upgrade` simulation,
counts stdout lines starting with the marker `Inst`, raises warnings on any
stderr output or non-zero child exit status, and folds everything into a
final severity with `max_state`.

The subprocess launcher `np_runcmd` (runcmd.c) is external to the embedded
code: each invocation's observable outcome (exit status, captured stdout and
stderr) is taken as an input `ProcResult`.  The severity combiner
`max_state` lives in utils.c, which is not among the given sources, so it is
modelled from the spec (see its doc comment).
-/

namespace CheckApt

/-- Nagios plugin exit states, ordinals as used throughout the plugins. -/
def STATE_OK : Nat := 0

/-- WARNING state ordinal. -/
def STATE_WARNING : Nat := 1

/-- CRITICAL state ordinal. -/
def STATE_CRITICAL : Nat := 2

/-- UNKNOWN state ordinal; `main` initialises its `result` to this. -/
def STATE_UNKNOWN : Nat := 3

/-- The fixed upgrade-simulation command line (`#define APTGET_UPGRADE`). -/
def APTGET_UPGRADE : String :=
  "/usr/bin/apt-get -o \x27Debug::NoLocking=true\x27 -s -qq upgrade"

/-- The fixed dist-upgrade-simulation command line (`#define APTGET_DISTUPGRADE`). -/
def APTGET_DISTUPGRADE : String :=
  "/usr/bin/apt-get -o \x27Debug::NoLocking=true\x27 -s -qq dist-upgrade"

/-- The fixed refresh command line (`#define APTGET_UPDATE`). -/
def APTGET_UPDATE : String := "/usr/bin/apt-get -q update"

/-- `struct output` of runcmd.h as consumed by check_apt.c: the captured
lines of one stream (`line`, with `lines` its count) and the total byte
length of the raw capture (`buflen`). -/
structure Output where
  line : List String
  buflen : Nat
deriving DecidableEq

/-- `chld_out.lines`: the number of captured lines. -/
def Output.lines (o : Output) : Nat := o.line.length

/-- The observable outcome of one `np_runcmd` invocation: the returned exit
status and the two captured streams. -/
structure ProcResult where
  status : Nat
  out : Output
  err : Output
deriving DecidableEq

/-- The two global warning flags of check_apt.c, threaded explicitly. -/
structure Globals where
  stderr_warning : Bool
  exec_warning : Bool
deriving DecidableEq

/-- Modelled from the spec: `max_state` is defined in the repository's
utils.c, which is not among the given sources.  Per the spec (§4.4), it
returns "the greater of the two under the total order
OK<WARNING<CRITICAL<UNKNOWN", i.e. the numeric maximum of the state
ordinals OK(0), WARNING(1), CRITICAL(2), UNKNOWN(3). -/
def max_state (a b : Nat) : Nat := max a b

/-- The marker that `run_upgrade` filters stdout lines on:
`strncmp(chld_out.line[i], "Inst", 4) == 0`. -/
def instMarker : List Char := ['I', 'n', 's', 't']

/-- Whether a captured stdout line matches the marker: its first four
characters are exactly `Inst` (case-sensitive, anchored at the start of the
line, no trimming). -/
def isInstLine (l : String) : Bool := l.data.take 4 == instMarker

/-- Result of the embedded `run_upgrade`: the returned severity, the count
written through `pkgcount`, the updated globals, the lines echoed to stdout
(verbose only), and the command line that was invoked. -/
structure UpgradeResult where
  result : Nat
  pkgcount : Nat
  g : Globals
  echoed : List String
  cmd : String
deriving DecidableEq

/-- Result of the embedded `run_update`: the returned severity, the updated
globals, the lines echoed to stdout (verbose only), and the command line
that was invoked. -/
structure UpdateResult where
  result : Nat
  g : Globals
  echoed : List String
  cmd : String
deriving DecidableEq

/-- Embedding of `run_upgrade` (check_apt.c lines 171-218).  `child` is the
observable outcome of the `np_runcmd` call; `g` the incoming globals.
Mirrors the source block by block: choose the command by `dist_upgrade`;
on non-zero status set `exec_warning` and force `STATE_UNKNOWN`; count the
`Inst`-marked stdout lines (echoing them when verbose); on non-empty stderr
(`chld_err.buflen`) set `stderr_warning` and raise to at least WARNING
via `max_state`, echoing stderr lines when verbose. -/
def run_upgrade (verbose : Nat) (dist_upgrade : Bool) (g : Globals)
    (child : ProcResult) : UpgradeResult :=
  let cmd := if dist_upgrade then APTGET_DISTUPGRADE else APTGET_UPGRADE
  let result0 := child.status
  let exec_w := if result0 ≠ 0 then true else g.exec_warning
  let result1 := if result0 ≠ 0 then STATE_UNKNOWN else result0
  let matched := child.out.line.filter isInstLine
  let echoed0 := if verbose ≠ 0 then matched else []
  let pc := matched.length
  let stderr_w := if child.err.buflen ≠ 0 then true else g.stderr_warning
  let result2 :=
    if child.err.buflen ≠ 0 then max_state result1 STATE_WARNING else result1
  let echoed1 := echoed0 ++
    (if child.err.buflen ≠ 0 then
      (if verbose ≠ 0 then child.err.line else []) else [])
  { result := result2, pkgcount := pc, g := ⟨stderr_w, exec_w⟩,
    echoed := echoed1, cmd := cmd }

/-- Embedding of `run_update` (check_apt.c lines 221-252).  Same shape as
`run_upgrade` but with the fixed refresh command, no line counting, and all
stdout lines echoed when verbose. -/
def run_update (verbose : Nat) (g : Globals) (child : ProcResult) :
    UpdateResult :=
  let result0 := child.status
  let exec_w := if result0 ≠ 0 then true else g.exec_warning
  let result1 := if result0 ≠ 0 then STATE_UNKNOWN else result0
  let echoed0 := if verbose ≠ 0 then child.out.line else []
  let stderr_w := if child.err.buflen ≠ 0 then true else g.stderr_warning
  let result2 :=
    if child.err.buflen ≠ 0 then max_state result1 STATE_WARNING else result1
  let echoed1 := echoed0 ++
    (if child.err.buflen ≠ 0 then
      (if verbose ≠ 0 then child.err.line else []) else [])
  { result := result2, g := ⟨stderr_w, exec_w⟩, echoed := echoed1,
    cmd := APTGET_UPDATE }

/-- The verdict of one run: the final severity `result`, the count
`packages_available`, and the final values of the two warning flags. -/
structure Verdict where
  result : Nat
  packages_available : Nat
  stderr_warning : Bool
  exec_warning : Bool
deriving DecidableEq

/-- A whole run's observables: the verdict, the sequence of command lines
invoked (in order), and the lines echoed to stdout. -/
structure RunOutcome where
  verdict : Verdict
  cmds : List String
  echoed : List String
deriving DecidableEq

/-- Embedding of `main` (check_apt.c lines 51-92), with the outcomes of the
two possible `np_runcmd` invocations supplied as `updChild` (used only when
`do_update`) and `upgChild`.  `result` starts at `STATE_UNKNOWN`; when
`do_update` it is overwritten by `run_update`; then combined via
`max_state` with `run_upgrade`; finally combined with WARNING when
`packages_available > 0`, else with OK. -/
def mainRun (verbose : Nat) (do_update dist_upgrade : Bool)
    (updChild upgChild : ProcResult) : RunOutcome :=
  let g0 : Globals := ⟨false, false⟩
  let upd := run_update verbose g0 updChild
  let result1 := if do_update then upd.result else STATE_UNKNOWN
  let g1 := if do_update then upd.g else g0
  let up := run_upgrade verbose dist_upgrade g1 upgChild
  let result2 := max_state result1 up.result
  let packages_available := up.pkgcount
  let result3 :=
    if packages_available > 0 then max_state result2 STATE_WARNING
    else max_state result2 STATE_OK
  { verdict := ⟨result3, packages_available, up.g.stderr_warning,
                up.g.exec_warning⟩,
    cmds := (if do_update then [upd.cmd] else []) ++ [up.cmd],
    echoed := (if do_update then upd.echoed else []) ++ up.echoed }

/-- Helper: the count reported by the `Inst` filter loop equals the number
of lines satisfying the marker predicate. -/
theorem length_filter_isInstLine (l : List String) :
    (l.filter isInstLine).length =
      l.countP (fun s => s.data.take 4 == instMarker) := by
  rw [List.countP_eq_length_filter]
  rfl

/-- C2: the severity combiner `max_state` returns the greater of its two
arguments under the total order OK(0) < WARNING(1) < CRITICAL(2) <
UNKNOWN(3); it is commutative, associative, idempotent, never lowers the
running value, and satisfies combine(OK,WARNING)=WARNING,
combine(WARNING,UNKNOWN)=UNKNOWN, combine(UNKNOWN,CRITICAL)=UNKNOWN. -/
theorem max_state_combine_props :
    (∀ a b : Nat, max_state a b = max a b) ∧
    (∀ a b : Nat, max_state a b = max_state b a) ∧
    (∀ a b c : Nat,
      max_state (max_state a b) c = max_state a (max_state b c)) ∧
    (∀ a : Nat, max_state a a = a) ∧
    (∀ a b : Nat, a ≤ max_state a b) ∧
    max_state STATE_OK STATE_WARNING = STATE_WARNING ∧
    max_state STATE_WARNING STATE_UNKNOWN = STATE_UNKNOWN ∧
    max_state STATE_UNKNOWN STATE_CRITICAL = STATE_UNKNOWN := by
  refine ⟨fun a b => rfl, ?_, ?_, ?_, ?_, rfl, rfl, rfl⟩ <;>
    intros <;> simp [max_state] <;> omega

/-- C4: `run_upgrade` reports, through `pkgcount`, exactly the number of
stdout lines whose first four characters are the case-sensitive literal
`Inst`, anchored at the start of the line with no trimming; all other lines
are ignored without error, and the concrete stdout
["Inst foo 1.0", "Conf foo", "Inst bar 2.0", ""] yields a count of 2. -/
theorem classifier_exact_marker_count (verbose : Nat) (dist_upgrade : Bool)
    (g : Globals) (child : ProcResult) :
    (run_upgrade verbose dist_upgrade g child).pkgcount =
      child.out.line.countP (fun l => l.data.take 4 == instMarker) ∧
    (run_upgrade 0 false ⟨false, false⟩
      ⟨0, ⟨["Inst foo 1.0", "Conf foo", "Inst bar 2.0", ""], 34⟩,
        ⟨[], 0⟩⟩).pkgcount = 2 := by
  constructor
  · simp only [run_upgrade]
    exact length_filter_isInstLine child.out.line
  · decide

/-- C9: for fixed captured child outputs and exit statuses, the verdict
(final severity, update count and both warning flags) is identical under
any two verbosity levels; verbosity gates only the echoed lines. -/
theorem verbosity_does_not_affect_verdict (v1 v2 : Nat)
    (do_update dist_upgrade : Bool) (updChild upgChild : ProcResult) :
    (mainRun v1 do_update dist_upgrade updChild upgChild).verdict =
      (mainRun v2 do_update dist_upgrade updChild upgChild).verdict := rfl

/-- C8: the refresh command is invoked at most once and only when
`do_update` is set, strictly before the single upgrade-simulation command,
and no command is ever invoked twice (no retries); the update count is
determined solely by the upgrade-simulation's stdout — it is the count of
`Inst`-marked lines there and is unchanged under any change of the refresh
invocation's outcome. -/
theorem orchestration_trace_and_frame (verbose : Nat)
    (do_update dist_upgrade : Bool) (updChild upgChild other : ProcResult) :
    (mainRun verbose do_update dist_upgrade updChild upgChild).cmds =
      (if do_update then [APTGET_UPDATE] else []) ++
        [if dist_upgrade then APTGET_DISTUPGRADE else APTGET_UPGRADE] ∧
    (mainRun verbose do_update dist_upgrade updChild
        upgChild).verdict.packages_available =
      upgChild.out.line.countP (fun l => l.data.take 4 == instMarker) ∧
    (mainRun verbose do_update dist_upgrade other
        upgChild).verdict.packages_available =
      (mainRun verbose do_update dist_upgrade updChild
        upgChild).verdict.packages_available := by
  refine ⟨rfl, ?_, rfl⟩
  simp only [mainRun, run_upgrade]
  exact length_filter_isInstLine upgChild.out.line

/-- C1: if the upgrade-simulation child exits with a non-zero status, the
final severity is UNKNOWN and exec_warning is true, regardless of the
captured stdout content and of whether stderr was empty. -/
theorem upgrade_nonzero_exit_forces_unknown (verbose : Nat)
    (do_update dist_upgrade : Bool) (updChild upgChild : ProcResult)
    (h : upgChild.status ≠ 0) :
    (mainRun verbose do_update dist_upgrade updChild
        upgChild).verdict.result = STATE_UNKNOWN ∧
    (mainRun verbose do_update dist_upgrade updChild
        upgChild).verdict.exec_warning = true := by
  constructor
  · simp [mainRun, run_upgrade, run_update, max_state, STATE_UNKNOWN,
      STATE_WARNING, STATE_OK, h]
    split_ifs <;> omega
  · simp [mainRun, run_upgrade, run_update, h]

/-- C1 witness: a concrete run whose upgrade child exits 1. -/
theorem upgrade_nonzero_exit_forces_unknown_witness :
    (mainRun 0 false false ⟨0, ⟨[], 0⟩, ⟨[], 0⟩⟩
        ⟨1, ⟨[], 0⟩, ⟨[], 0⟩⟩).verdict.result = STATE_UNKNOWN ∧
    (mainRun 0 false false ⟨0, ⟨[], 0⟩, ⟨[], 0⟩⟩
        ⟨1, ⟨[], 0⟩, ⟨[], 0⟩⟩).verdict.exec_warning = true :=
  upgrade_nonzero_exit_forces_unknown 0 false false
    ⟨0, ⟨[], 0⟩, ⟨[], 0⟩⟩ ⟨1, ⟨[], 0⟩, ⟨[], 0⟩⟩ (by decide)

/-- C3: in every verdict-producing run, a positive update count forces the
final severity to at least WARNING, and a zero update count leaves it at
least OK. -/
theorem update_count_severity_floor (verbose : Nat)
    (do_update dist_upgrade : Bool) (updChild upgChild : ProcResult) :
    (0 < (mainRun verbose do_update dist_upgrade updChild
        upgChild).verdict.packages_available →
      STATE_WARNING ≤ (mainRun verbose do_update dist_upgrade updChild
        upgChild).verdict.result) ∧
    ((mainRun verbose do_update dist_upgrade updChild
        upgChild).verdict.packages_available = 0 →
      STATE_OK ≤ (mainRun verbose do_update dist_upgrade updChild
        upgChild).verdict.result) := by
  constructor <;>
    · simp only [mainRun, run_upgrade, run_update, max_state, STATE_UNKNOWN,
        STATE_WARNING, STATE_OK]
      intro hc
      split_ifs <;> omega

/-- C3 witness: one run with one `Inst` line (count 1, severity at least
WARNING) and one clean run (count 0, severity at least OK). -/
theorem update_count_severity_floor_witness :
    STATE_WARNING ≤ (mainRun 0 false false ⟨0, ⟨[], 0⟩, ⟨[], 0⟩⟩
      ⟨0, ⟨["Inst a 1"], 9⟩, ⟨[], 0⟩⟩).verdict.result ∧
    STATE_OK ≤ (mainRun 0 false false ⟨0, ⟨[], 0⟩, ⟨[], 0⟩⟩
      ⟨0, ⟨[], 0⟩, ⟨[], 0⟩⟩).verdict.result :=
  ⟨(update_count_severity_floor 0 false false ⟨0, ⟨[], 0⟩, ⟨[], 0⟩⟩
      ⟨0, ⟨["Inst a 1"], 9⟩, ⟨[], 0⟩⟩).1 (by decide),
   (update_count_severity_floor 0 false false ⟨0, ⟨[], 0⟩, ⟨[], 0⟩⟩
      ⟨0, ⟨[], 0⟩, ⟨[], 0⟩⟩).2 (by decide)⟩

/-- C5: in both `run_upgrade` and `run_update`, starting from a cleared
stderr flag, the flag is set to true iff the captured stderr has byte
length greater than zero, regardless of content; and whenever it is set,
the invocation's returned severity is at least WARNING. -/
theorem stderr_signal_iff_nonempty (verbose : Nat) (dist_upgrade : Bool)
    (e1 e2 : Bool) (child1 child2 : ProcResult) :
    ((run_upgrade verbose dist_upgrade ⟨false, e1⟩
        child1).g.stderr_warning = true ↔ 0 < child1.err.buflen) ∧
    (0 < child1.err.buflen →
      STATE_WARNING ≤ (run_upgrade verbose dist_upgrade ⟨false, e1⟩
        child1).result) ∧
    ((run_update verbose ⟨false, e2⟩ child2).g.stderr_warning = true ↔
      0 < child2.err.buflen) ∧
    (0 < child2.err.buflen →
      STATE_WARNING ≤ (run_update verbose ⟨false, e2⟩ child2).result) := by
  refine ⟨?_, ?_, ?_, ?_⟩
  · simp [run_upgrade]
    omega
  · simp only [run_upgrade, max_state, STATE_UNKNOWN, STATE_WARNING]
    intro hc
    split_ifs <;> omega
  · simp [run_update]
    omega
  · simp only [run_update, max_state, STATE_UNKNOWN, STATE_WARNING]
    intro hc
    split_ifs <;> omega

/-- C5 witness: a stderr capture of a single newline (one empty line, byte
length 1) raises both invocations' severity to at least WARNING. -/
theorem stderr_signal_iff_nonempty_witness :
    STATE_WARNING ≤ (run_upgrade 0 false ⟨false, false⟩
      ⟨0, ⟨[], 0⟩, ⟨[""], 1⟩⟩).result ∧
    STATE_WARNING ≤ (run_update 0 ⟨false, false⟩
      ⟨0, ⟨[], 0⟩, ⟨[""], 1⟩⟩).result :=
  ⟨(stderr_signal_iff_nonempty 0 false false false
      ⟨0, ⟨[], 0⟩, ⟨[""], 1⟩⟩ ⟨0, ⟨[], 0⟩, ⟨[""], 1⟩⟩).2.1 (by decide),
   (stderr_signal_iff_nonempty 0 false false false
      ⟨0, ⟨[], 0⟩, ⟨[""], 1⟩⟩ ⟨0, ⟨[], 0⟩, ⟨[""], 1⟩⟩).2.2.2 (by decide)⟩

/-- C6 counterexample: with refresh disabled and the upgrade-simulation
child exiting 0 with empty stdout and empty stderr, the verdict is not
{OK, 0, false, false}: under the aggregation order the spec states
(UNKNOWN highest), the severity the result is initialised to survives. -/
theorem clean_run_not_ok_counterexample :
    ¬ ((mainRun 0 false false ⟨0, ⟨[], 0⟩, ⟨[], 0⟩⟩
        ⟨0, ⟨[], 0⟩, ⟨[], 0⟩⟩).verdict =
      ⟨STATE_OK, 0, false, false⟩) := by decide

/-- C6 amended: for the run with refresh disabled in which the
upgrade-simulation command exits 0 with empty stdout and empty stderr, the
verdict is {severity: UNKNOWN, updateCount: 0, stderrWarning: false,
execWarning: false}: the initial UNKNOWN is never lowered by the
spec-stated combining order, in which UNKNOWN is maximal. -/
theorem clean_run_yields_unknown_verdict :
    (mainRun 0 false false ⟨0, ⟨[], 0⟩, ⟨[], 0⟩⟩
      ⟨0, ⟨[], 0⟩, ⟨[], 0⟩⟩).verdict =
    ⟨STATE_UNKNOWN, 0, false, false⟩ := by decide

/-- C10: the two warning flags start false in `main` and are monotone (once
true in the incoming globals of either invocation they stay true); the
final stderr flag is true iff some executed invocation captured non-empty
stderr, and the final exec flag is true iff some executed child exited with
non-zero status. -/
theorem warning_flags_monotone_characterization (verbose : Nat)
    (do_update dist_upgrade : Bool) (updChild upgChild : ProcResult) :
    ((mainRun verbose do_update dist_upgrade updChild
        upgChild).verdict.stderr_warning = true ↔
      ((do_update = true ∧ updChild.err.buflen ≠ 0) ∨
        upgChild.err.buflen ≠ 0)) ∧
    ((mainRun verbose do_update dist_upgrade updChild
        upgChild).verdict.exec_warning = true ↔
      ((do_update = true ∧ updChild.status ≠ 0) ∨
        upgChild.status ≠ 0)) ∧
    (∀ g child, g.stderr_warning = true →
      (run_upgrade verbose dist_upgrade g child).g.stderr_warning = true) ∧
    (∀ g child, g.exec_warning = true →
      (run_upgrade verbose dist_upgrade g child).g.exec_warning = true) ∧
    (∀ g child, g.stderr_warning = true →
      (run_update verbose g child).g.stderr_warning = true) ∧
    (∀ g child, g.exec_warning = true →
      (run_update verbose g child).g.exec_warning = true) := by
  refine ⟨?_, ?_, ?_, ?_, ?_, ?_⟩ <;>
    · intros
      simp_all [mainRun, run_upgrade, run_update] <;>
        split_ifs <;> simp_all <;> tauto

/-- C10 witness: already-set flags survive both invocations on a clean
child. -/
theorem warning_flags_monotone_characterization_witness :
    (run_upgrade 0 false ⟨true, true⟩
      ⟨0, ⟨[], 0⟩, ⟨[], 0⟩⟩).g.stderr_warning = true ∧
    (run_upgrade 0 false ⟨true, true⟩
      ⟨0, ⟨[], 0⟩, ⟨[], 0⟩⟩).g.exec_warning = true ∧
    (run_update 0 ⟨true, true⟩
      ⟨0, ⟨[], 0⟩, ⟨[], 0⟩⟩).g.stderr_warning = true ∧
    (run_update 0 ⟨true, true⟩
      ⟨0, ⟨[], 0⟩, ⟨[], 0⟩⟩).g.exec_warning = true :=
  ⟨(warning_flags_monotone_characterization 0 false false
      ⟨0, ⟨[], 0⟩, ⟨[], 0⟩⟩ ⟨0, ⟨[], 0⟩, ⟨[], 0⟩⟩).2.2.1
      ⟨true, true⟩ ⟨0, ⟨[], 0⟩, ⟨[], 0⟩⟩ (by decide),
   (warning_flags_monotone_characterization 0 false false
      ⟨0, ⟨[], 0⟩, ⟨[], 0⟩⟩ ⟨0, ⟨[], 0⟩, ⟨[], 0⟩⟩).2.2.2.1
      ⟨true, true⟩ ⟨0, ⟨[], 0⟩, ⟨[], 0⟩⟩ (by decide),
   (warning_flags_monotone_characterization 0 false false
      ⟨0, ⟨[], 0⟩, ⟨[], 0⟩⟩ ⟨0, ⟨[], 0⟩, ⟨[], 0⟩⟩).2.2.2.2.1
      ⟨true, true⟩ ⟨0, ⟨[], 0⟩, ⟨[], 0⟩⟩ (by decide),
   (warning_flags_monotone_characterization 0 false false
      ⟨0, ⟨[], 0⟩, ⟨[], 0⟩⟩ ⟨0, ⟨[], 0⟩, ⟨[], 0⟩⟩).2.2.2.2.2
      ⟨true, true⟩ ⟨0, ⟨[], 0⟩, ⟨[], 0⟩⟩ (by decide)⟩

end CheckApt
